import Mathlib

/-!
Verification of the RUNE plugin SDK example plugins (`src/include/plugin_api.h`,
`src/include/rune_plugin.h`, `src/examples/math_plugin/src/math_plugin.cpp`,
`src/examples/timer_plugin/src/timer_plugin.cpp`) against the natural-language
specification of the plugin boundary.

The plugin-side code (node `execute` callbacks, timer callbacks, lifecycle
hooks, descriptor tables) is embedded shallowly: C `double` pin values are
modelled as exact rationals (every numeric value exercised by the spec's test
vectors is exactly representable in IEEE double, so the rational model agrees
with the machine on them), `uint32_t`/`uint64_t`/`int64_t` arithmetic is
modelled as `Nat`/`Int` with explicit reduction modulo the word size, NULL
pointers become `Option`, and every call a node makes into host services is
recorded as an explicit effect in an ordered list.  Host-side code (the
registration validator and the containment barrier) is not part of this
repository's sources; those two definitions are modelled from the spec and
marked as such.
-/

namespace Rune

/-- Log levels, from `PluginLogLevel` in `plugin_api.h`. -/
inductive LogLevel where
  | debug
  | info
  | warn
  | error
deriving DecidableEq, Repr

/-- One call made by plugin code into the host across the boundary, in order.
`log` records `host->log`, `logFmt` records `host->log_formatted` (only the
format string is tracked; the claims never inspect the formatted arguments),
`setOutputFloat`/`setOutputInt` record `ctx->set_output_float`/`_int`,
`setError` records `ctx->set_error`, `triggerOutput` records
`ctx->trigger_output`, `createTimer`/`destroyTimer` record the timer service
calls, `registerNode` records `reg->register_node` by unique name, and
`freeInstance` records the `free()` of the instance memory. -/
inductive HostCall where
  | log (lvl : LogLevel) (msg : String)
  | logFmt (lvl : LogLevel) (fmt : String)
  | setOutputFloat (pin : String) (value : ℚ)
  | setOutputInt (pin : String) (value : ℤ)
  | setError (msg : String)
  | triggerOutput (pin : String)
  | createTimer (intervalMs : ℕ)
  | destroyTimer (timerId : ℕ)
  | registerNode (uniqueName : String)
  | freeInstance
deriving DecidableEq, Repr

/-- The read-only face of an `ExecContext` as a node sees it: the typed input
accessors and the property accessor from `plugin_api.h`.  A missing upstream
connection or property is already folded into the functions (`get_input_*`
return a documented default; `get_property` may return NULL, hence `Option`). -/
structure ExecInputs where
  getFloat : String → ℚ
  getInt : String → ℤ
  getString : String → String
  getProp : String → Option String

/-- Host services as the example plugins use them: the application-environment
lookup (`app_env_get`, NULL becomes `none`) and the timer factory
(`create_timer`, returning 0 on failure).  The handle returned for a creation
request is modelled as a function of the requested interval; the claims
quantify over this function, so every host behaviour is covered. -/
structure HostServices where
  appEnv : String → Option String
  createTimer : ℕ → ℕ

/-- Truthiness test from `IsTestFlagEnabled` in `timer_plugin.cpp`: the flag is
enabled when `app_env_get` returns a non-NULL, non-empty string equal to
`"1"`, `"true"` or `"TRUE"`. -/
def IsTestFlagEnabled (env : String → Option String) (key : String) : Bool :=
  match env key with
  | none => false
  | some v =>
      if v = "" then false
      else v = "1" || v = "true" || v = "TRUE"

/-- Outcome of a call into plugin code across the boundary: a normal return
carrying the value, or a thrown C++ exception carrying its message. -/
inductive CallOutcome (α : Type) where
  | ret (value : α)
  | thrown (msg : String)
deriving Repr

/-- Reduction of a C `int` value to `uint32_t`, as in the cast
`(uint32_t)atoi(...)` and `(uint32_t)delay_ms`. -/
def uint32OfInt (i : ℤ) : ℕ :=
  (i % (2 ^ 32)).toNat

/-- Reinterpretation of a `uint64_t` counter as `int64_t`, as in the cast
`(int64_t)inst->tick_count`. -/
def int64OfNat (n : ℕ) : ℤ :=
  if n % 2 ^ 64 < 2 ^ 63 then ((n % 2 ^ 64 : ℕ) : ℤ)
  else ((n % 2 ^ 64 : ℕ) : ℤ) - 2 ^ 64

/-- Digit-accumulation loop of C `atoi`: consume leading decimal digits,
stopping at the first non-digit. -/
def atoiDigits : List Char → ℕ → ℕ
  | [], acc => acc
  | c :: cs, acc =>
      if c.isDigit then atoiDigits cs (acc * 10 + (c.toNat - '0'.toNat)) else acc

/-- C `atoi`: skip leading whitespace, accept one optional sign, then read
leading decimal digits; any string with no leading digits yields 0.  (The
out-of-`int`-range case is undefined behaviour in C and is modelled as the
exact integer value; no claim exercises it.) -/
def atoi (s : String) : ℤ :=
  let isSpaceC : Char → Bool := fun c =>
    c = ' ' || c = '\t' || c = '\n' || c = '\x0b' || c = '\x0c' || c = '\r'
  match s.toList.dropWhile isSpaceC with
  | '-' :: rest => -(atoiDigits rest 0 : ℤ)
  | '+' :: rest => (atoiDigits rest 0 : ℤ)
  | rest => (atoiDigits rest 0 : ℤ)

/- ===========================================================================
   Math plugin (`src/examples/math_plugin/src/math_plugin.cpp`)
   =========================================================================== -/

/-- Model of C `pow` from `<cmath>` on the exactly-representable regime the
code is exercised on: for an integer exponent the result is exact integer
exponentiation (negative exponents invert).  A non-integer exponent is outside
the rational model (the example nodes and the spec's test vectors never reach
it) and is mapped to 0. -/
def c_pow (b e : ℚ) : ℚ :=
  if e.den = 1 then
    if 0 ≤ e.num then b ^ e.num.toNat else (b ^ (-e.num).toNat)⁻¹
  else 0

/-- `add_execute`: reads inputs `A` and `B` as floats, writes `A + B` to
`Result`, returns true. -/
def add_execute (ctx : ExecInputs) : Bool × List HostCall :=
  let a := ctx.getFloat "A"
  let b := ctx.getFloat "B"
  (true, [HostCall.setOutputFloat "Result" (a + b)])

/-- `multiply_execute`: reads inputs `A` and `B` as floats, writes `A * B` to
`Result`, returns true. -/
def multiply_execute (ctx : ExecInputs) : Bool × List HostCall :=
  let a := ctx.getFloat "A"
  let b := ctx.getFloat "B"
  (true, [HostCall.setOutputFloat "Result" (a * b)])

/-- `divide_execute`: reads `A` and `B`; if `B` reads as zero it sets the error
"Division by zero" and returns false without writing an output, otherwise it
writes `A / B` to `Result` and returns true. -/
def divide_execute (ctx : ExecInputs) : Bool × List HostCall :=
  let a := ctx.getFloat "A"
  let b := ctx.getFloat "B"
  if b = 0 then
    (false, [HostCall.setError "Division by zero"])
  else
    (true, [HostCall.setOutputFloat "Result" (a / b)])

/-- `power_execute`: reads `Base` and `Exponent`, writes `pow(Base, Exponent)`
to `Result`, returns true. -/
def power_execute (ctx : ExecInputs) : Bool × List HostCall :=
  let base := ctx.getFloat "Base"
  let exponent := ctx.getFloat "Exponent"
  (true, [HostCall.setOutputFloat "Result" (c_pow base exponent)])

/- ===========================================================================
   Timer plugin (`src/examples/timer_plugin/src/timer_plugin.cpp`)
   =========================================================================== -/

/-- State of one `TimerInstance`: the timer handle, whether a context pointer
has been stored (`ctx != NULL`), the `active` flag, the interval field
(`uint32_t`) and the tick counter (`uint64_t`). -/
structure TimerInstance where
  timer_id : ℕ
  hasCtx : Bool
  active : Bool
  interval_ms : ℕ
  tick_count : ℕ
deriving DecidableEq, Repr

/-- `timer_create`: allocates an instance with `timer_id = 0`, no stored
context, inactive, `interval_ms = 1000`, `tick_count = 0`. -/
def timer_create : TimerInstance :=
  { timer_id := 0, hasCtx := false, active := false, interval_ms := 1000, tick_count := 0 }

/-- `timer_callback`: invoked by the timer subsystem with the instance as user
data.  If the instance is inactive or has no stored context it does nothing;
otherwise it increments `tick_count` (uint64 arithmetic), writes the new count
to the `TickCount` output as `int64_t`, and triggers the `OnTimer` execution
output. -/
def timer_callback (inst : TimerInstance) : TimerInstance × List HostCall :=
  if inst.active = false ∨ inst.hasCtx = false then
    (inst, [])
  else
    let tc := (inst.tick_count + 1) % 2 ^ 64
    ({ inst with tick_count := tc },
     [HostCall.setOutputInt "TickCount" (int64OfNat tc),
      HostCall.triggerOutput "OnTimer"])

/-- Effective interval computed by `timer_start_listening`: a present,
non-empty `IntervalMs` property overwrites `interval_ms` with
`(uint32_t)atoi(...)`; a zero value of the field (whether just parsed or left
over) is then replaced by the 1000 ms default. -/
def timer_effective_interval (inst : TimerInstance) (ctx : ExecInputs) : ℕ :=
  let iv :=
    match ctx.getProp "IntervalMs" with
    | some s => if s = "" then inst.interval_ms else uint32OfInt (atoi s)
    | none => inst.interval_ms
  if iv = 0 then 1000 else iv

/-- `timer_start_listening`: with a NULL global host pointer it fails at once;
otherwise it computes the interval, stores the context, marks the instance
active, resets `tick_count` to 0, asks the host to create the timer, and on a
zero handle logs "Failed to create timer" and returns false, else logs the
start message and returns true. -/
def timer_start_listening (inst : TimerInstance) (ctx : ExecInputs)
    (gHost : Option HostServices) : Bool × TimerInstance × List HostCall :=
  match gHost with
  | none => (false, inst, [])
  | some host =>
      let interval := timer_effective_interval inst ctx
      let inst1 : TimerInstance :=
        { inst with interval_ms := interval, hasCtx := true, active := true, tick_count := 0 }
      let tid := host.createTimer interval
      let inst2 : TimerInstance := { inst1 with timer_id := tid }
      if tid = 0 then
        (false, inst2,
         [HostCall.createTimer interval, HostCall.log LogLevel.error "Failed to create timer"])
      else
        (true, inst2,
         [HostCall.createTimer interval,
          HostCall.logFmt LogLevel.info "Timer started with interval %u ms"])

/-- `timer_stop_listening`: clears the `active` flag; if the instance holds a
nonzero timer handle and the global host pointer is set, destroys the timer,
zeroes the handle and logs "Timer stopped". -/
def timer_stop_listening (inst : TimerInstance) (gHostSet : Bool) :
    TimerInstance × List HostCall :=
  let inst1 : TimerInstance := { inst with active := false }
  if inst1.timer_id ≠ 0 ∧ gHostSet = true then
    ({ inst1 with timer_id := 0 },
     [HostCall.destroyTimer inst1.timer_id, HostCall.log LogLevel.info "Timer stopped"])
  else
    (inst1, [])

/-- `timer_destroy`: if the instance holds a nonzero timer handle and the
global host pointer is set, destroys the timer, then frees the instance. -/
def timer_destroy (inst : TimerInstance) (gHostSet : Bool) : List HostCall :=
  (if inst.timer_id ≠ 0 ∧ gHostSet = true then [HostCall.destroyTimer inst.timer_id] else [])
    ++ [HostCall.freeInstance]

/-- Instance state after `n` firings of the timer callback. -/
def fireN (inst : TimerInstance) : ℕ → TimerInstance
  | 0 => inst
  | n + 1 => (timer_callback (fireN inst n)).1

/-- State of one `DelayInstance`: the one-shot timer handle, whether a context
pointer has been stored, and the completion flag. -/
structure DelayInstance where
  timer_id : ℕ
  hasCtx : Bool
  completed : Bool
deriving DecidableEq, Repr

/-- `delay_create`: allocates an instance with `timer_id = 0`, no stored
context, not completed. -/
def delay_create : DelayInstance :=
  { timer_id := 0, hasCtx := false, completed := false }

/-- `delay_callback`: invoked by the one-shot timer.  With no stored context it
does nothing; otherwise it sets `completed`, triggers the `OnComplete`
execution output, and destroys the one-shot timer (when the handle is nonzero
and the global host pointer is set), zeroing the handle. -/
def delay_callback (inst : DelayInstance) (gHostSet : Bool) :
    DelayInstance × List HostCall :=
  if inst.hasCtx = false then
    (inst, [])
  else
    let inst1 : DelayInstance := { inst with completed := true }
    if inst1.timer_id ≠ 0 ∧ gHostSet = true then
      ({ inst1 with timer_id := 0 },
       [HostCall.triggerOutput "OnComplete", HostCall.destroyTimer inst1.timer_id])
    else
      (inst1, [HostCall.triggerOutput "OnComplete"])

/-- Effective delay computed by `delay_execute`: the `DelayMs` input read as
int, replaced by the 1000 ms default when it is zero or negative. -/
def delay_effective_delay (ctx : ExecInputs) : ℤ :=
  let d := ctx.getInt "DelayMs"
  if d ≤ 0 then 1000 else d

/-- `delay_execute`: with a NULL global host pointer it fails at once.  When
the `RUNE_TEST_TIMER_THROW_IN_DELAY_EXECUTE` application-environment flag is
enabled it throws a `std::runtime_error` (modelled as a `thrown` outcome).
Otherwise it reads `DelayMs` (defaulting non-positive values to 1000 ms),
stores the context, clears `completed`, and creates a one-shot timer; a zero
handle is logged as "Failed to create delay timer" with a false return,
otherwise the start is logged at debug level and the call returns true. -/
def delay_execute (inst : DelayInstance) (ctx : ExecInputs)
    (gHost : Option HostServices) :
    CallOutcome (Bool × DelayInstance × List HostCall) :=
  match gHost with
  | none => CallOutcome.ret (false, inst, [])
  | some host =>
      if IsTestFlagEnabled host.appEnv "RUNE_TEST_TIMER_THROW_IN_DELAY_EXECUTE" then
        CallOutcome.thrown "Timer plugin test exception in delay_execute"
      else
        let interval := uint32OfInt (delay_effective_delay ctx)
        let inst1 : DelayInstance := { inst with hasCtx := true, completed := false }
        let tid := host.createTimer interval
        let inst2 : DelayInstance := { inst1 with timer_id := tid }
        if tid = 0 then
          CallOutcome.ret (false, inst2,
            [HostCall.createTimer interval,
             HostCall.log LogLevel.error "Failed to create delay timer"])
        else
          CallOutcome.ret (true, inst2,
            [HostCall.createTimer interval,
             HostCall.logFmt LogLevel.debug "Delay started: %lld ms"])

/-- `delay_is_complete`: a NULL instance reports true, otherwise the value of
the `completed` flag. -/
def delay_is_complete (inst : Option DelayInstance) : Bool :=
  match inst with
  | none => true
  | some i => i.completed

/-- `delay_destroy`: if the instance holds a nonzero timer handle and the
global host pointer is set, destroys the timer, then frees the instance. -/
def delay_destroy (inst : DelayInstance) (gHostSet : Bool) : List HostCall :=
  (if inst.timer_id ≠ 0 ∧ gHostSet = true then [HostCall.destroyTimer inst.timer_id] else [])
    ++ [HostCall.freeInstance]

/- ===========================================================================
   Timer plugin lifecycle hooks
   =========================================================================== -/

/-- `on_load` of the timer plugin: stores the host pointer, throws
`std::runtime_error` when the `RUNE_TEST_TIMER_THROW_ON_LOAD` flag is enabled,
otherwise logs the load message and returns true. -/
def timer_on_load (host : HostServices) : CallOutcome (Bool × List HostCall) :=
  if IsTestFlagEnabled host.appEnv "RUNE_TEST_TIMER_THROW_ON_LOAD" then
    CallOutcome.thrown "Timer plugin test exception in on_load"
  else
    CallOutcome.ret (true, [HostCall.log LogLevel.info "Timer plugin loaded"])

/-- `on_register` of the timer plugin: throws when the global host pointer is
set and the `RUNE_TEST_TIMER_THROW_ON_REGISTER` flag is enabled; otherwise
registers the Timer Event and Delay node types and, when the host pointer is
set, logs the registration message. -/
def timer_on_register (gHost : Option HostServices) : CallOutcome (List HostCall) :=
  match gHost with
  | some host =>
      if IsTestFlagEnabled host.appEnv "RUNE_TEST_TIMER_THROW_ON_REGISTER" then
        CallOutcome.thrown "Timer plugin test exception in on_register"
      else
        CallOutcome.ret
          [HostCall.registerNode "com.rune.example.timer.event",
           HostCall.registerNode "com.rune.example.timer.delay",
           HostCall.log LogLevel.info "Timer plugin registered 2 nodes"]
  | none =>
      CallOutcome.ret
        [HostCall.registerNode "com.rune.example.timer.event",
         HostCall.registerNode "com.rune.example.timer.delay"]

/- ===========================================================================
   Descriptors and capability tables
   =========================================================================== -/

/-- Pin direction, from `PinDirection` in `plugin_api.h`. -/
inductive PinDirection where
  | PIN_IN
  | PIN_OUT
deriving DecidableEq, Repr

/-- Pin kind, from `PinKind` in `plugin_api.h`. -/
inductive PinKind where
  | PIN_KIND_DATA
  | PIN_KIND_EXECUTION
deriving DecidableEq, Repr

/-- One pin description, from `PinDesc` in `plugin_api.h`. -/
structure PinDesc where
  name : String
  type : String
  direction : PinDirection
  kind : PinKind
  flags : ℕ
deriving DecidableEq, Repr

/-- Node flag bit `NODE_FLAG_TRIGGER_EVENT` (1 << 0). -/
def NODE_FLAG_TRIGGER_EVENT : ℕ := 1

/-- Node flag bit `NODE_FLAG_PURE_DATA` (1 << 1). -/
def NODE_FLAG_PURE_DATA : ℕ := 2

/-- Node flag bit `NODE_FLAG_ASYNC` (1 << 2). -/
def NODE_FLAG_ASYNC : ℕ := 4

/-- Node type description, from `NodeDesc` in `plugin_api.h`.  The pin array
and its count are both kept; `color` abstracts the optional RGB pointer. -/
structure NodeDesc where
  name : String
  category : String
  unique_name : String
  pins : List PinDesc
  pin_count : ℕ
  flags : ℕ
  color : Option (ℤ × ℤ × ℤ)
  icon : Option String
  description : Option String

/-- Capability table, from `NodeVTable` in `plugin_api.h`, recording for each
slot whether the plugin supplied a function (true) or left it NULL (false). -/
structure NodeVTable where
  create_instance : Bool
  destroy_instance : Bool
  draw_inspector : Bool
  draw_node_body : Bool
  serialize : Bool
  deserialize : Bool
  execute : Bool
  on_pre_execute : Bool
  on_post_execute : Bool
  start_listening : Bool
  stop_listening : Bool
  is_complete : Bool

/-- Pins of the Timer Event node (`timer_pins`). -/
def timer_pins : List PinDesc :=
  [{ name := "IntervalMs", type := "int", direction := PinDirection.PIN_IN,
     kind := PinKind.PIN_KIND_DATA, flags := 0 },
   { name := "OnTimer", type := "execution", direction := PinDirection.PIN_OUT,
     kind := PinKind.PIN_KIND_EXECUTION, flags := 0 },
   { name := "TickCount", type := "int", direction := PinDirection.PIN_OUT,
     kind := PinKind.PIN_KIND_DATA, flags := 0 }]

/-- Descriptor of the Timer Event node (`timer_desc`). -/
def timer_desc : NodeDesc :=
  { name := "Timer Event", category := "Events",
    unique_name := "com.rune.example.timer.event",
    pins := timer_pins, pin_count := 3, flags := NODE_FLAG_TRIGGER_EVENT,
    color := some (200, 150, 100), icon := none,
    description := some "Fires at a configurable interval" }

/-- Capability table of the Timer Event node (`timer_vtable`): create, destroy,
execute, start_listening and stop_listening supplied; everything else NULL. -/
def timer_vtable : NodeVTable :=
  { create_instance := true, destroy_instance := true,
    draw_inspector := false, draw_node_body := false,
    serialize := false, deserialize := false,
    execute := true,
    on_pre_execute := false, on_post_execute := false,
    start_listening := true, stop_listening := true,
    is_complete := false }

/-- Pins of the Delay node (`delay_pins`). -/
def delay_pins : List PinDesc :=
  [{ name := "Execute", type := "execution", direction := PinDirection.PIN_IN,
     kind := PinKind.PIN_KIND_EXECUTION, flags := 0 },
   { name := "DelayMs", type := "int", direction := PinDirection.PIN_IN,
     kind := PinKind.PIN_KIND_DATA, flags := 0 },
   { name := "OnComplete", type := "execution", direction := PinDirection.PIN_OUT,
     kind := PinKind.PIN_KIND_EXECUTION, flags := 0 }]

/-- Descriptor of the Delay node (`delay_desc`). -/
def delay_desc : NodeDesc :=
  { name := "Delay", category := "Flow Control",
    unique_name := "com.rune.example.timer.delay",
    pins := delay_pins, pin_count := 3, flags := NODE_FLAG_ASYNC,
    color := some (150, 150, 200), icon := none,
    description := some "Delays execution by specified milliseconds" }

/-- Capability table of the Delay node (`delay_vtable`): create, destroy,
execute and is_complete supplied; everything else NULL. -/
def delay_vtable : NodeVTable :=
  { create_instance := true, destroy_instance := true,
    draw_inspector := false, draw_node_body := false,
    serialize := false, deserialize := false,
    execute := true,
    on_pre_execute := false, on_post_execute := false,
    start_listening := false, stop_listening := false,
    is_complete := true }

/-- The shared A/B/Result pin layout of Add, Multiply and Divide
(`add_pins`, `multiply_pins`, `divide_pins` are textually identical). -/
def math_ab_pins : List PinDesc :=
  [{ name := "A", type := "float", direction := PinDirection.PIN_IN,
     kind := PinKind.PIN_KIND_DATA, flags := 0 },
   { name := "B", type := "float", direction := PinDirection.PIN_IN,
     kind := PinKind.PIN_KIND_DATA, flags := 0 },
   { name := "Result", type := "float", direction := PinDirection.PIN_OUT,
     kind := PinKind.PIN_KIND_DATA, flags := 0 }]

/-- The capability table shared in shape by all four math nodes: create,
destroy and execute supplied; everything else NULL (`add_vtable`,
`multiply_vtable`, `divide_vtable`, `power_vtable`). -/
def math_vtable : NodeVTable :=
  { create_instance := true, destroy_instance := true,
    draw_inspector := false, draw_node_body := false,
    serialize := false, deserialize := false,
    execute := true,
    on_pre_execute := false, on_post_execute := false,
    start_listening := false, stop_listening := false,
    is_complete := false }

/-- Descriptor of the Add node (`add_desc`). -/
def add_desc : NodeDesc :=
  { name := "Add", category := "Math", unique_name := "com.rune.example.math.add",
    pins := math_ab_pins, pin_count := 3, flags := NODE_FLAG_PURE_DATA,
    color := some (100, 200, 100), icon := none,
    description := some "Add two numbers together" }

/-- Descriptor of the Multiply node (`multiply_desc`). -/
def multiply_desc : NodeDesc :=
  { name := "Multiply", category := "Math",
    unique_name := "com.rune.example.math.multiply",
    pins := math_ab_pins, pin_count := 3, flags := NODE_FLAG_PURE_DATA,
    color := some (100, 200, 100), icon := none,
    description := some "Multiply two numbers" }

/-- Descriptor of the Divide node (`divide_desc`). -/
def divide_desc : NodeDesc :=
  { name := "Divide", category := "Math",
    unique_name := "com.rune.example.math.divide",
    pins := math_ab_pins, pin_count := 3, flags := NODE_FLAG_PURE_DATA,
    color := some (100, 200, 100), icon := none,
    description := some "Divide A by B" }

/-- Pins of the Power node (`power_pins`). -/
def power_pins : List PinDesc :=
  [{ name := "Base", type := "float", direction := PinDirection.PIN_IN,
     kind := PinKind.PIN_KIND_DATA, flags := 0 },
   { name := "Exponent", type := "float", direction := PinDirection.PIN_IN,
     kind := PinKind.PIN_KIND_DATA, flags := 0 },
   { name := "Result", type := "float", direction := PinDirection.PIN_OUT,
     kind := PinKind.PIN_KIND_DATA, flags := 0 }]

/-- Descriptor of the Power node (`power_desc`). -/
def power_desc : NodeDesc :=
  { name := "Power", category := "Math",
    unique_name := "com.rune.example.math.power",
    pins := power_pins, pin_count := 3, flags := NODE_FLAG_PURE_DATA,
    color := some (100, 200, 100), icon := none,
    description := some "Raise Base to the power of Exponent" }

/- ===========================================================================
   Host-side contracts modelled from the spec (not present under src/)
   =========================================================================== -/

/-- Test for one node flag bit in a descriptor's flag word. -/
def hasNodeFlag (flags f : ℕ) : Bool :=
  decide (flags &&& f ≠ 0)

/-- Number of execution-input pins in a pin list. -/
def execInputCount (pins : List PinDesc) : ℕ :=
  (pins.filter fun p =>
    p.kind = PinKind.PIN_KIND_EXECUTION ∧ p.direction = PinDirection.PIN_IN).length

/-- Number of execution pins of either direction in a pin list. -/
def execPinCount (pins : List PinDesc) : ℕ :=
  (pins.filter fun p => p.kind = PinKind.PIN_KIND_EXECUTION).length

/-- Whether all pin names in a list are distinct. -/
def pinNamesUnique (pins : List PinDesc) : Bool :=
  decide (pins.map fun p => p.name).Nodup

/-- Modelled from the spec: the Node Type Registry's registration-time
validation (§4.1).  The registry implementation is host code and is not under
`src/`; only its declaration (`PluginNodeRegistry::register_node`) is.  The
rules: pin names unique within the type; `trigger-event` nodes must supply
`start_listening`/`stop_listening` and declare zero execution-input pins;
`pure-data` nodes must declare zero execution pins of either direction and
supply `execute`; `async` nodes must supply `is_complete`. -/
def validRegistration (d : NodeDesc) (v : NodeVTable) : Bool :=
  pinNamesUnique d.pins &&
  (!hasNodeFlag d.flags NODE_FLAG_TRIGGER_EVENT ||
    (v.start_listening && v.stop_listening && decide (execInputCount d.pins = 0))) &&
  (!hasNodeFlag d.flags NODE_FLAG_PURE_DATA ||
    (decide (execPinCount d.pins = 0) && v.execute)) &&
  (!hasNodeFlag d.flags NODE_FLAG_ASYNC || v.is_complete)

/-- Result the host observes from one contained capability invocation: whether
the host process is still running, whether the call is treated as having
succeeded, and what failure text (if any) reached the logging channel. -/
structure ContainedResult where
  processAlive : Bool
  callSucceeded : Bool
  logged : List String
deriving DecidableEq, Repr

/-- Modelled from the spec: the host's containment barrier (§4.6).  The
barrier implementation is host code and is not under `src/`; only the
plugin-side throw sites are.  Every capability invocation is wrapped: a normal
return passes its success value through with nothing logged by the barrier; a
fault is caught at the call site, logged, and converted to a failed-call
result, with the host process continuing in either case. -/
def hostInvoke {α : Type} (succeeded : α → Bool) (outcome : CallOutcome α) :
    ContainedResult :=
  match outcome with
  | CallOutcome.ret v => { processAlive := true, callSucceeded := succeeded v, logged := [] }
  | CallOutcome.thrown msg =>
      { processAlive := true, callSucceeded := false, logged := [msg] }

end Rune

/- ===========================================================================
   Witness inputs
   =========================================================================== -/

/-- Concrete execution context used by witnesses: `A = 10`, `B = 0`, every
other accessor returns the documented default. -/
def ctxDivByZero : Rune.ExecInputs where
  getFloat := fun p => if p = "A" then 10 else 0
  getInt := fun _ => 0
  getString := fun _ => ""
  getProp := fun _ => none

/-- Concrete execution context used by witnesses: `A = 10`, `B = 2`. -/
def ctxDivNormal : Rune.ExecInputs where
  getFloat := fun p => if p = "A" then 10 else if p = "B" then 2 else 0
  getInt := fun _ => 0
  getString := fun _ => ""
  getProp := fun _ => none

/-- Concrete execution context used by witnesses: `A = 2`, `B = 3`,
`Base = 2`, `Exponent = 3`. -/
def ctxMath : Rune.ExecInputs where
  getFloat := fun p =>
    if p = "A" then 2 else if p = "B" then 3
    else if p = "Base" then 2 else if p = "Exponent" then 3 else 0
  getInt := fun _ => 0
  getString := fun _ => ""
  getProp := fun _ => none

/-- Host whose timer factory always fails, used by the C8 witness. -/
def hostNoTimers : Rune.HostServices where
  appEnv := fun _ => none
  createTimer := fun _ => 0

/-- Execution context returning only documented defaults, used by witnesses. -/
def ctxDefaults : Rune.ExecInputs where
  getFloat := fun _ => 0
  getInt := fun _ => 0
  getString := fun _ => ""
  getProp := fun _ => none

/-- Host whose application environment enables every test flag (each lookup
returns "1") and whose timer factory succeeds, used by the C1 witness. -/
def hostAllFlags : Rune.HostServices where
  appEnv := fun _ => some "1"
  createTimer := fun _ => 1

/-- Timer Event instance holding live timer handle 7, used by the C9 witness. -/
def tiHolding7 : Rune.TimerInstance :=
  { timer_id := 7, hasCtx := true, active := false, interval_ms := 1000, tick_count := 3 }

/-- Delay instance holding live timer handle 7, used by the C9 witness. -/
def diHolding7 : Rune.DelayInstance :=
  { timer_id := 7, hasCtx := true, completed := false }

/-- Host whose timer factory always succeeds with handle 1, used by the C6 and
C7 witnesses. -/
def hostOk : Rune.HostServices where
  appEnv := fun _ => none
  createTimer := fun _ => 1

/-- Timer Event instance right after a successful `start_listening` from a
fresh instance with default inputs, used by the C6 witness. -/
def instStarted : Rune.TimerInstance :=
  (Rune.timer_start_listening Rune.timer_create ctxDefaults (some hostOk)).2.1

/-- Delay instance state right after a successful `execute` from a fresh
instance with default inputs against `hostOk`, used by the C7 witness. -/
def delayStarted : Rune.DelayInstance :=
  { timer_id := 1, hasCtx := true, completed := false }

/-- Host calls of that successful Delay `execute`, used by the C7 witness. -/
def delayStartEffects : List Rune.HostCall :=
  [Rune.HostCall.createTimer 1000,
   Rune.HostCall.logFmt Rune.LogLevel.debug "Delay started: %lld ms"]

/-- Host with always-succeeding timer creation (handle 7), used by the C10
counterexample. -/
def cexHost : Rune.HostServices where
  appEnv := fun _ => none
  createTimer := fun _ => 7

/-- Execution context whose `IntervalMs` property is "500", used by the C10
counterexample. -/
def cexCtx500 : Rune.ExecInputs where
  getFloat := fun _ => 0
  getInt := fun _ => 0
  getString := fun _ => ""
  getProp := fun p => if p = "IntervalMs" then some "500" else none

/-- Timer Event instance that has been started with `IntervalMs = "500"` and
then stopped: its interval field still holds 500.  Used by the C10
counterexample. -/
def cexRestarted : Rune.TimerInstance :=
  (Rune.timer_stop_listening
    (Rune.timer_start_listening Rune.timer_create cexCtx500 (some cexHost)).2.1 true).1

/-- Execution context whose `IntervalMs` property is the non-numeric "abc"
(parsing to 0) and whose `DelayMs` input reads 0, used by the C10 witness. -/
def ctxIntervalAbc : Rune.ExecInputs where
  getFloat := fun _ => 0
  getInt := fun _ => 0
  getString := fun _ => ""
  getProp := fun p => if p = "IntervalMs" then some "abc" else none

/- ===========================================================================
   Helper lemmas
   =========================================================================== -/

/-- Inversion of `delay_execute`: any normal return (with the host pointer
set) leaves the instance with `completed` cleared and a stored context. -/
lemma delay_execute_ret_state (di di1 : Rune.DelayInstance) (ctx : Rune.ExecInputs)
    (host : Rune.HostServices) (b : Bool) (eff : List Rune.HostCall)
    (h : Rune.delay_execute di ctx (some host)
        = Rune.CallOutcome.ret (b, di1, eff)) :
    di1.completed = false ∧ di1.hasCtx = true := by
  by_cases hf :
      Rune.IsTestFlagEnabled host.appEnv "RUNE_TEST_TIMER_THROW_IN_DELAY_EXECUTE" = true
  · simp [Rune.delay_execute, hf] at h
  · by_cases ht : host.createTimer (Rune.uint32OfInt (Rune.delay_effective_delay ctx)) = 0
    · simp [Rune.delay_execute, hf, ht] at h
      rw [← h.2.1]
      exact ⟨rfl, rfl⟩
    · simp [Rune.delay_execute, hf, ht] at h
      rw [← h.2.1]
      exact ⟨rfl, rfl⟩

/-- A `uint64_t` value below `2 ^ 63` reads back unchanged through the
`int64_t` cast. -/
lemma int64OfNat_of_lt (n : ℕ) (h : n < 2 ^ 63) : Rune.int64OfNat n = (n : ℤ) := by
  have h64 : n < 2 ^ 64 := lt_trans h (by norm_num)
  unfold Rune.int64OfNat
  rw [Nat.mod_eq_of_lt h64, if_pos h]

/-- The instance state produced by `timer_start_listening` (on either branch):
context stored, active, tick counter reset, interval and timer handle as
computed. -/
lemma start_listening_post (inst : Rune.TimerInstance) (ctx : Rune.ExecInputs)
    (host : Rune.HostServices) :
    (Rune.timer_start_listening inst ctx (some host)).2.1 =
      { timer_id := host.createTimer (Rune.timer_effective_interval inst ctx),
        hasCtx := true, active := true,
        interval_ms := Rune.timer_effective_interval inst ctx, tick_count := 0 } := by
  simp only [Rune.timer_start_listening]
  split <;> rfl

/-- Invariant of the firing loop: starting from an active instance with a
stored context and a zeroed counter, `k` firings leave the instance active
with counter exactly `k`, as long as the `uint64_t` counter has not wrapped. -/
lemma fireN_invariant (inst : Rune.TimerInstance) (ha : inst.active = true)
    (hc : inst.hasCtx = true) (h0 : inst.tick_count = 0) :
    ∀ k : ℕ, k < 2 ^ 64 →
      (Rune.fireN inst k).active = true ∧ (Rune.fireN inst k).hasCtx = true ∧
      (Rune.fireN inst k).tick_count = k := by
  intro k
  induction k with
  | zero =>
      intro _
      exact ⟨ha, hc, h0⟩
  | succ n ih =>
      intro hk
      obtain ⟨ia, ic, it⟩ := ih (Nat.lt_of_succ_lt hk)
      simp [Rune.fireN, Rune.timer_callback, ia, ic, it]
      omega

/- ===========================================================================
   Claim theorems
   =========================================================================== -/

/-- C2: for the Divide node, a zero `B` input makes `execute` fail with the
error "Division by zero" set and no numeric output written, while inputs
`A = 10`, `B = 2` make it succeed writing `5` to `Result`. -/
theorem divide_zero_and_normal (ctx ctx2 : Rune.ExecInputs) :
    (ctx.getFloat "B" = 0 →
      Rune.divide_execute ctx = (false, [Rune.HostCall.setError "Division by zero"]) ∧
      ∀ p v, Rune.HostCall.setOutputFloat p v ∉ (Rune.divide_execute ctx).2) ∧
    (ctx2.getFloat "A" = 10 → ctx2.getFloat "B" = 2 →
      Rune.divide_execute ctx2 = (true, [Rune.HostCall.setOutputFloat "Result" 5])) := by
  constructor
  · intro hB
    have h : Rune.divide_execute ctx = (false, [Rune.HostCall.setError "Division by zero"]) := by
      simp [Rune.divide_execute, hB]
    refine ⟨h, ?_⟩
    intro p v hmem
    rw [h] at hmem
    simp at hmem
  · intro hA hB
    simp [Rune.divide_execute, hA, hB]
    norm_num

/-- Witness for C2 at the spec's concrete vectors `A=10, B=0` and `A=10, B=2`. -/
theorem divide_zero_and_normal_witness :
    (Rune.divide_execute ctxDivByZero
        = (false, [Rune.HostCall.setError "Division by zero"])) ∧
    (Rune.divide_execute ctxDivNormal
        = (true, [Rune.HostCall.setOutputFloat "Result" 5])) := by
  refine ⟨((divide_zero_and_normal ctxDivByZero ctxDivNormal).1 rfl).1, ?_⟩
  exact (divide_zero_and_normal ctxDivByZero ctxDivNormal).2 rfl rfl

/-- C5: the math nodes are pure functions of their inputs.  On inputs 2 and 3,
Add writes 5, Multiply writes 6 and Power (Base=2, Exponent=3) writes 8 to
`Result`, each returning success; and each node's entire observable result
(return value and host calls) is determined by its input pin values alone, so
repetition or reordering of calls cannot change it. -/
theorem math_nodes_pure (ctx ctx' : Rune.ExecInputs) :
    (ctx.getFloat "A" = 2 → ctx.getFloat "B" = 3 →
      Rune.add_execute ctx = (true, [Rune.HostCall.setOutputFloat "Result" 5]) ∧
      Rune.multiply_execute ctx = (true, [Rune.HostCall.setOutputFloat "Result" 6])) ∧
    (ctx.getFloat "Base" = 2 → ctx.getFloat "Exponent" = 3 →
      Rune.power_execute ctx = (true, [Rune.HostCall.setOutputFloat "Result" 8])) ∧
    (ctx.getFloat "A" = ctx'.getFloat "A" → ctx.getFloat "B" = ctx'.getFloat "B" →
      Rune.add_execute ctx = Rune.add_execute ctx' ∧
      Rune.multiply_execute ctx = Rune.multiply_execute ctx' ∧
      Rune.divide_execute ctx = Rune.divide_execute ctx') ∧
    (ctx.getFloat "Base" = ctx'.getFloat "Base" →
      ctx.getFloat "Exponent" = ctx'.getFloat "Exponent" →
      Rune.power_execute ctx = Rune.power_execute ctx') := by
  refine ⟨?_, ?_, ?_, ?_⟩
  · intro hA hB
    constructor <;> simp [Rune.add_execute, Rune.multiply_execute, hA, hB] <;> norm_num
  · intro hB hE
    simp [Rune.power_execute, hB, hE, Rune.c_pow]
    norm_num
  · intro hA hB
    refine ⟨?_, ?_, ?_⟩ <;>
      simp [Rune.add_execute, Rune.multiply_execute, Rune.divide_execute, hA, hB]
  · intro hB hE
    simp [Rune.power_execute, hB, hE]

/-- C1: faults raised inside plugin-supplied lifecycle hooks or node
capabilities are contained at the boundary.  With the timer plugin's test
flags enabled, `on_load`, `on_register` and the Delay node's `execute` each
throw; the host's containment barrier keeps the process alive, converts each
call to a failed-call result, and makes the failure observable exactly through
the logging channel (the thrown message is what gets logged).  The final
conjunct states the boundary guarantee itself: the wrapped host never dies,
whatever outcome plugin code produces. -/
theorem plugin_faults_contained (host : Rune.HostServices) (di : Rune.DelayInstance)
    (ctx : Rune.ExecInputs)
    (h1 : Rune.IsTestFlagEnabled host.appEnv "RUNE_TEST_TIMER_THROW_ON_LOAD" = true)
    (h2 : Rune.IsTestFlagEnabled host.appEnv "RUNE_TEST_TIMER_THROW_ON_REGISTER" = true)
    (h3 : Rune.IsTestFlagEnabled host.appEnv "RUNE_TEST_TIMER_THROW_IN_DELAY_EXECUTE" = true) :
    Rune.hostInvoke (fun r => r.1) (Rune.timer_on_load host) =
      { processAlive := true, callSucceeded := false,
        logged := ["Timer plugin test exception in on_load"] } ∧
    Rune.hostInvoke (fun _ => true) (Rune.timer_on_register (some host)) =
      { processAlive := true, callSucceeded := false,
        logged := ["Timer plugin test exception in on_register"] } ∧
    Rune.hostInvoke (fun r => r.1) (Rune.delay_execute di ctx (some host)) =
      { processAlive := true, callSucceeded := false,
        logged := ["Timer plugin test exception in delay_execute"] } ∧
    (∀ (α : Type) (s : α → Bool) (o : Rune.CallOutcome α),
      (Rune.hostInvoke s o).processAlive = true) := by
  refine ⟨?_, ?_, ?_, ?_⟩
  · simp [Rune.timer_on_load, Rune.hostInvoke, h1]
  · simp [Rune.timer_on_register, Rune.hostInvoke, h2]
  · simp [Rune.delay_execute, Rune.hostInvoke, h3]
  · intro α s o
    cases o <;> simp [Rune.hostInvoke]

/-- Witness for C1: a host environment with every test flag set to "1". -/
theorem plugin_faults_contained_witness :
    Rune.hostInvoke (fun r => r.1) (Rune.timer_on_load hostAllFlags) =
      { processAlive := true, callSucceeded := false,
        logged := ["Timer plugin test exception in on_load"] } ∧
    Rune.hostInvoke (fun _ => true) (Rune.timer_on_register (some hostAllFlags)) =
      { processAlive := true, callSucceeded := false,
        logged := ["Timer plugin test exception in on_register"] } ∧
    Rune.hostInvoke (fun r => r.1)
        (Rune.delay_execute Rune.delay_create ctxDefaults (some hostAllFlags)) =
      { processAlive := true, callSucceeded := false,
        logged := ["Timer plugin test exception in delay_execute"] } ∧
    (∀ (α : Type) (s : α → Bool) (o : Rune.CallOutcome α),
      (Rune.hostInvoke s o).processAlive = true) := by
  exact plugin_faults_contained hostAllFlags Rune.delay_create ctxDefaults rfl rfl rfl

/-- C4: every node type descriptor registered by the example plugins passes
the registration validation for its declared flags: the Timer Event node
carries the trigger-event flag and validates (supplies start/stop listening,
zero execution-input pins), the Delay node carries the async flag and
validates (supplies is_complete), and the four math nodes carry the pure-data
flag and validate (zero execution pins, supply execute). -/
theorem example_nodes_pass_registration :
    Rune.hasNodeFlag Rune.timer_desc.flags Rune.NODE_FLAG_TRIGGER_EVENT = true ∧
    Rune.validRegistration Rune.timer_desc Rune.timer_vtable = true ∧
    Rune.hasNodeFlag Rune.delay_desc.flags Rune.NODE_FLAG_ASYNC = true ∧
    Rune.validRegistration Rune.delay_desc Rune.delay_vtable = true ∧
    Rune.hasNodeFlag Rune.add_desc.flags Rune.NODE_FLAG_PURE_DATA = true ∧
    Rune.validRegistration Rune.add_desc Rune.math_vtable = true ∧
    Rune.hasNodeFlag Rune.multiply_desc.flags Rune.NODE_FLAG_PURE_DATA = true ∧
    Rune.validRegistration Rune.multiply_desc Rune.math_vtable = true ∧
    Rune.hasNodeFlag Rune.divide_desc.flags Rune.NODE_FLAG_PURE_DATA = true ∧
    Rune.validRegistration Rune.divide_desc Rune.math_vtable = true ∧
    Rune.hasNodeFlag Rune.power_desc.flags Rune.NODE_FLAG_PURE_DATA = true ∧
    Rune.validRegistration Rune.power_desc Rune.math_vtable = true := by
  decide

/-- C3: after `stop_listening` returns, the timer callback performs no further
`trigger_output` (it produces no host calls at all and leaves the state
unchanged), and `stop_listening` is idempotent: a second call returns the same
stopped state and performs no timer destruction. -/
theorem stop_listening_quiescent_idempotent (inst : Rune.TimerInstance) (gHostSet : Bool) :
    Rune.timer_callback (Rune.timer_stop_listening inst gHostSet).1
      = ((Rune.timer_stop_listening inst gHostSet).1, []) ∧
    Rune.timer_stop_listening (Rune.timer_stop_listening inst gHostSet).1 gHostSet
      = ((Rune.timer_stop_listening inst gHostSet).1, []) := by
  by_cases ht : inst.timer_id = 0 <;> cases gHostSet <;>
    simp [Rune.timer_stop_listening, Rune.timer_callback, ht]

/-- C6: after `start_listening` succeeds, each timer firing produces exactly
one `trigger_output` on `OnTimer`, reporting the counter incremented once per
firing before being written; the counter starts at 0 on `start_listening`, the
k-th firing reports k, and the reported counts are monotonically
non-decreasing (strictly increasing, in fact) over every prefix of firings on
which the 63-bit signed reinterpretation of the `uint64_t` counter is
faithful. -/
theorem timer_firings_monotone (inst inst0 : Rune.TimerInstance) (ctx : Rune.ExecInputs)
    (host : Rune.HostServices)
    (hstart : (Rune.timer_start_listening inst ctx (some host)).1 = true)
    (hinst0 : inst0 = (Rune.timer_start_listening inst ctx (some host)).2.1) :
    inst0.tick_count = 0 ∧
    (∀ k : ℕ, k + 1 < 2 ^ 63 →
      (Rune.timer_callback (Rune.fireN inst0 k)).2 =
        [Rune.HostCall.setOutputInt "TickCount" ((k : ℤ) + 1),
         Rune.HostCall.triggerOutput "OnTimer"]) ∧
    (∀ k j : ℕ, k ≤ j → j + 1 < 2 ^ 63 →
      Rune.int64OfNat ((Rune.fireN inst0 (k + 1)).tick_count) ≤
        Rune.int64OfNat ((Rune.fireN inst0 (j + 1)).tick_count)) := by
  rw [start_listening_post inst ctx host] at hinst0
  subst hinst0
  have hinv := fireN_invariant
    { timer_id := host.createTimer (Rune.timer_effective_interval inst ctx),
      hasCtx := true, active := true,
      interval_ms := Rune.timer_effective_interval inst ctx, tick_count := 0 }
    rfl rfl rfl
  refine ⟨rfl, ?_, ?_⟩
  · intro k hk
    have hk64 : k < 2 ^ 64 := by
      have h1 : k + 1 < 2 ^ 64 := lt_trans hk (by norm_num)
      omega
    obtain ⟨ia, ic, it⟩ := hinv k hk64
    have hmod : (k + 1) % 2 ^ 64 = k + 1 :=
      Nat.mod_eq_of_lt (lt_trans hk (by norm_num))
    unfold Rune.timer_callback
    rw [if_neg (by simp [ia, ic]), it, hmod]
    simp [int64OfNat_of_lt (k + 1) hk]
  · intro k j hkj hj
    have hk : k + 1 < 2 ^ 63 := lt_of_le_of_lt (by omega) hj
    have hk64 : k + 1 < 2 ^ 64 := lt_trans hk (by norm_num)
    have hj64 : j + 1 < 2 ^ 64 := lt_trans hj (by norm_num)
    have htk := (hinv (k + 1) hk64).2.2
    have htj := (hinv (j + 1) hj64).2.2
    rw [htk, htj, int64OfNat_of_lt (k + 1) hk, int64OfNat_of_lt (j + 1) hj]
    exact_mod_cast Nat.succ_le_succ hkj

/-- Witness for C6: a fresh instance started with default inputs against a
host whose timer creation succeeds; the first firing reports 1 and the second
firing's report is at least the first's. -/
theorem timer_firings_monotone_witness :
    instStarted.tick_count = 0 ∧
    (Rune.timer_callback (Rune.fireN instStarted 0)).2 =
      [Rune.HostCall.setOutputInt "TickCount" ((0 : ℤ) + 1),
       Rune.HostCall.triggerOutput "OnTimer"] ∧
    Rune.int64OfNat ((Rune.fireN instStarted 1).tick_count) ≤
      Rune.int64OfNat ((Rune.fireN instStarted 2).tick_count) := by
  have h := timer_firings_monotone Rune.timer_create instStarted ctxDefaults hostOk rfl rfl
  exact ⟨h.1, h.2.1 0 (by norm_num), h.2.2 0 1 (by omega) (by norm_num)⟩

/-- C7: the Delay node's asynchronous completion protocol.  After a successful
`execute`, `is_complete` reports false; once the one-shot timer callback has
fired, `is_complete` reports true (the single false-to-true transition, and —
`is_complete` being a pure read of the `completed` flag — every further poll
of the same state keeps reporting true); a subsequent successful `execute`
resets the flag so `is_complete` reports false again. -/
theorem delay_async_completion (di di1 : Rune.DelayInstance) (ctx ctx2 : Rune.ExecInputs)
    (host : Rune.HostServices) (eff : List Rune.HostCall) (g : Bool)
    (h : Rune.delay_execute di ctx (some host)
        = Rune.CallOutcome.ret (true, di1, eff)) :
    Rune.delay_is_complete (some di1) = false ∧
    Rune.delay_is_complete (some (Rune.delay_callback di1 g).1) = true ∧
    (∀ di2 eff2,
      Rune.delay_execute (Rune.delay_callback di1 g).1 ctx2 (some host)
          = Rune.CallOutcome.ret (true, di2, eff2) →
      Rune.delay_is_complete (some di2) = false) := by
  obtain ⟨hc, hx⟩ := delay_execute_ret_state di di1 ctx host true eff h
  refine ⟨by simp [Rune.delay_is_complete, hc], ?_, ?_⟩
  · by_cases hz : di1.timer_id ≠ 0 ∧ g = true <;>
      simp [Rune.delay_callback, Rune.delay_is_complete, hx, hz]
  · intro di2 eff2 h2
    have h3 := delay_execute_ret_state _ di2 ctx2 host true eff2 h2
    simp [Rune.delay_is_complete, h3.1]

/-- Witness for C7: a fresh Delay instance executed with default inputs
against a host whose timer creation succeeds, then fired. -/
theorem delay_async_completion_witness :
    Rune.delay_is_complete (some delayStarted) = false ∧
    Rune.delay_is_complete (some (Rune.delay_callback delayStarted true).1) = true := by
  have h := delay_async_completion Rune.delay_create delayStarted ctxDefaults ctxDefaults
    hostOk delayStartEffects true rfl
  exact ⟨h.1, h.2.1⟩

/-- C9: the destructor capability of each timer-plugin node releases the
outstanding timer itself: with a nonzero timer handle held, `destroy_instance`
calls `destroy_timer` on that handle before freeing the instance memory. -/
theorem destroy_releases_timer (ti : Rune.TimerInstance) (di : Rune.DelayInstance)
    (h1 : ti.timer_id ≠ 0) (h2 : di.timer_id ≠ 0) :
    Rune.timer_destroy ti true
      = [Rune.HostCall.destroyTimer ti.timer_id, Rune.HostCall.freeInstance] ∧
    Rune.delay_destroy di true
      = [Rune.HostCall.destroyTimer di.timer_id, Rune.HostCall.freeInstance] := by
  simp [Rune.timer_destroy, Rune.delay_destroy, h1, h2]

/-- Witness for C9 at instances holding timer handle 7. -/
theorem destroy_releases_timer_witness :
    Rune.timer_destroy tiHolding7 true
      = [Rune.HostCall.destroyTimer 7, Rune.HostCall.freeInstance] ∧
    Rune.delay_destroy diHolding7 true
      = [Rune.HostCall.destroyTimer 7, Rune.HostCall.freeInstance] := by
  exact destroy_releases_timer tiHolding7 diHolding7 (by decide) (by decide)

/-- C8: a zero handle from `create_timer` is a soft failure.  In the Timer
Event node's `start_listening` it yields a false return with an error logged;
in the Delay node's `execute` (test flag off) it yields a normal `.ret` with a
false result and an error logged — no crash, no exception in either case. -/
theorem create_timer_zero_soft_failure (ti : Rune.TimerInstance) (di : Rune.DelayInstance)
    (ctx : Rune.ExecInputs) (host : Rune.HostServices)
    (hT : host.createTimer (Rune.timer_effective_interval ti ctx) = 0)
    (hflag : Rune.IsTestFlagEnabled host.appEnv "RUNE_TEST_TIMER_THROW_IN_DELAY_EXECUTE" = false)
    (hD : host.createTimer (Rune.uint32OfInt (Rune.delay_effective_delay ctx)) = 0) :
    (Rune.timer_start_listening ti ctx (some host)).1 = false ∧
    (Rune.timer_start_listening ti ctx (some host)).2.2 =
      [Rune.HostCall.createTimer (Rune.timer_effective_interval ti ctx),
       Rune.HostCall.log Rune.LogLevel.error "Failed to create timer"] ∧
    Rune.delay_execute di ctx (some host) =
      Rune.CallOutcome.ret (false,
        { di with hasCtx := true, completed := false, timer_id := 0 },
        [Rune.HostCall.createTimer (Rune.uint32OfInt (Rune.delay_effective_delay ctx)),
         Rune.HostCall.log Rune.LogLevel.error "Failed to create delay timer"]) := by
  refine ⟨?_, ?_, ?_⟩ <;>
    simp [Rune.timer_start_listening, Rune.delay_execute, hT, hD, hflag]

/-- Witness for C8: fresh instances, default inputs, a host whose
`create_timer` returns 0. -/
theorem create_timer_zero_soft_failure_witness :
    (Rune.timer_start_listening Rune.timer_create ctxDefaults (some hostNoTimers)).1 = false ∧
    (Rune.timer_start_listening Rune.timer_create ctxDefaults (some hostNoTimers)).2.2 =
      [Rune.HostCall.createTimer
         (Rune.timer_effective_interval Rune.timer_create ctxDefaults),
       Rune.HostCall.log Rune.LogLevel.error "Failed to create timer"] ∧
    Rune.delay_execute Rune.delay_create ctxDefaults (some hostNoTimers) =
      Rune.CallOutcome.ret (false,
        { Rune.delay_create with hasCtx := true, completed := false, timer_id := 0 },
        [Rune.HostCall.createTimer
           (Rune.uint32OfInt (Rune.delay_effective_delay ctxDefaults)),
         Rune.HostCall.log Rune.LogLevel.error "Failed to create delay timer"]) := by
  exact create_timer_zero_soft_failure Rune.timer_create Rune.delay_create
    ctxDefaults hostNoTimers rfl rfl rfl

/-- Counterexample to C10 as stated: on an instance previously started with
`IntervalMs = "500"` and then stopped, a `start_listening` call whose
`IntervalMs` property is missing does NOT use the 1000 ms default — it reuses
the retained 500 ms interval (the call succeeds and `create_timer` is invoked
with 500). -/
theorem timer_default_interval_cex :
    ctxDefaults.getProp "IntervalMs" = none ∧
    (Rune.timer_start_listening cexRestarted ctxDefaults (some cexHost)).1 = true ∧
    Rune.HostCall.createTimer 500
      ∈ (Rune.timer_start_listening cexRestarted ctxDefaults (some cexHost)).2.2 ∧
    Rune.timer_effective_interval cexRestarted ctxDefaults ≠ 1000 := by
  decide

/-- C10 (amended): the Delay node's `execute` substitutes 1000 ms whenever
`DelayMs` reads as ≤ 0.  The Timer Event node's `start_listening` substitutes
1000 ms whenever the `IntervalMs` property parses to 0; when the property is
missing or empty it reuses the instance's current interval field — 1000 ms on
a freshly created instance, but the previously parsed interval on a restarted
one.  The interval so computed is what `start_listening` passes to
`create_timer`. -/
theorem default_interval_amended (inst : Rune.TimerInstance) (ctx ctxm : Rune.ExecInputs)
    (host : Rune.HostServices) (s : String) :
    (ctx.getProp "IntervalMs" = some s → s ≠ "" → Rune.uint32OfInt (Rune.atoi s) = 0 →
      Rune.timer_effective_interval inst ctx = 1000) ∧
    (ctxm.getProp "IntervalMs" = none ∨ ctxm.getProp "IntervalMs" = some "" →
      Rune.timer_effective_interval inst ctxm =
        (if inst.interval_ms = 0 then 1000 else inst.interval_ms)) ∧
    Rune.timer_create.interval_ms = 1000 ∧
    (ctx.getInt "DelayMs" ≤ 0 → Rune.uint32OfInt (Rune.delay_effective_delay ctx) = 1000) ∧
    Rune.HostCall.createTimer (Rune.timer_effective_interval inst ctx)
      ∈ (Rune.timer_start_listening inst ctx (some host)).2.2 := by
  refine ⟨?_, ?_, rfl, ?_, ?_⟩
  · intro hp hs hz
    simp [Rune.timer_effective_interval, hp, hs, hz]
  · intro hm
    rcases hm with hm | hm <;> simp [Rune.timer_effective_interval, hm]
  · intro hd
    simp only [Rune.delay_effective_delay, if_pos hd]
    decide
  · simp only [Rune.timer_start_listening]
    split <;> simp

/-- Witness for C10 (amended): a non-numeric property parses to 0 and yields
the 1000 ms default; a missing property on a fresh instance yields the
instance's initial 1000 ms; `DelayMs = 0` yields 1000 ms; and the computed
interval is the one handed to `create_timer`. -/
theorem default_interval_amended_witness :
    Rune.timer_effective_interval Rune.timer_create ctxIntervalAbc = 1000 ∧
    Rune.timer_effective_interval Rune.timer_create ctxDefaults =
      (if Rune.timer_create.interval_ms = 0 then 1000 else Rune.timer_create.interval_ms) ∧
    Rune.timer_create.interval_ms = 1000 ∧
    Rune.uint32OfInt (Rune.delay_effective_delay ctxIntervalAbc) = 1000 ∧
    Rune.HostCall.createTimer (Rune.timer_effective_interval Rune.timer_create ctxIntervalAbc)
      ∈ (Rune.timer_start_listening Rune.timer_create ctxIntervalAbc (some hostOk)).2.2 := by
  have h := default_interval_amended Rune.timer_create ctxIntervalAbc ctxDefaults hostOk "abc"
  exact ⟨h.1 rfl (by decide) (by decide), h.2.1 (Or.inl rfl), h.2.2.1,
    h.2.2.2.1 (by decide), h.2.2.2.2⟩

/-- Witness for C5 at the spec's vectors Add(2,3), Multiply(2,3), Power(2,3),
plus determinism of Add at that same input. -/
theorem math_nodes_pure_witness :
    (Rune.add_execute ctxMath = (true, [Rune.HostCall.setOutputFloat "Result" 5]) ∧
     Rune.multiply_execute ctxMath = (true, [Rune.HostCall.setOutputFloat "Result" 6])) ∧
    Rune.power_execute ctxMath = (true, [Rune.HostCall.setOutputFloat "Result" 8]) ∧
    Rune.add_execute ctxMath = Rune.add_execute ctxMath := by
  refine ⟨(math_nodes_pure ctxMath ctxMath).1 rfl rfl,
    (math_nodes_pure ctxMath ctxMath).2.1 rfl rfl,
    ((math_nodes_pure ctxMath ctxMath).2.2.1 rfl rfl).1⟩
